import Mathlib

/-!
Verification of the web-note-player core: the sprite range resolver
(`getClosestSpriteNoteData`) and the playback scheduler
(`webNotePlayerOn` / `webNotePlayerOff`).

Pitches are modelled as integers (`ℤ`), times and durations in seconds as
rationals (`ℚ`).  A TypeScript value of type `T | undefined` is modelled as
`Option`; a thrown error is modelled as an `Except` error value; the
`console.warn` in the resolver fallback is modelled as a `Bool` flag
returned alongside the descriptor.
-/

/-- Data for a single note segment of the audio sprite: the sampled pitch,
the inclusive MIDI range it answers for, its offset and natural duration in
the sprite, and optional loop points. -/
structure AudioSpriteNoteData where
  midiNoteNumber : ℤ
  midiNoteRangeStart : ℤ
  midiNoteRangeEnd : ℤ
  noteStart : ℚ
  noteDuration : ℚ
  loopStart : Option ℚ := none
  loopEnd : Option ℚ := none
deriving DecidableEq, Repr

/-- The instrument catalog: a mapping from instrument name to its ordered
descriptor sequence (a JS object keyed by instrument name). -/
abbrev AudioSpriteInstrumentsData : Type := List (String × List AudioSpriteNoteData)

/-- Placeholder descriptor used as the (never-relevant) default for list
indexing; the source indexes only in bounds. -/
def defaultSpriteNoteData : AudioSpriteNoteData :=
  { midiNoteNumber := 0, midiNoteRangeStart := 0, midiNoteRangeEnd := 0
    noteStart := 0, noteDuration := 0 }

/-- The descriptor stored at index `i` (`instrumentData[i]`). -/
def noteDataAt (instrumentData : List AudioSpriteNoteData) (i : ℕ) : AudioSpriteNoteData :=
  instrumentData.getD i defaultSpriteNoteData

/-- `rangeStart` of the descriptor at index `i`. -/
def rangeStartAt (instrumentData : List AudioSpriteNoteData) (i : ℕ) : ℤ :=
  (noteDataAt instrumentData i).midiNoteRangeStart

/-- `rangeEnd` of the descriptor at index `i`. -/
def rangeEndAt (instrumentData : List AudioSpriteNoteData) (i : ℕ) : ℤ :=
  (noteDataAt instrumentData i).midiNoteRangeEnd

/-- The binary-search loop of `getClosestSpriteNoteData`: `low`/`high` are
JS numbers (integers, `high` may become `-1`), `mid = Math.floor((low+high)/2)`.
The `while (low <= high)` loop is modelled with a fuel argument; any fuel
larger than the iteration count (which is bounded by the list length)
produces the loop's result. -/
def bsearchLoop (instrumentData : List AudioSpriteNoteData) (midiNoteNumber : ℤ) :
    ℕ → ℤ → ℤ → Option AudioSpriteNoteData
  | 0, _, _ => none
  | fuel + 1, low, high =>
    if low ≤ high then
      let mid : ℤ := (low + high) / 2
      let currentNoteData := noteDataAt instrumentData mid.toNat
      if midiNoteNumber ≥ currentNoteData.midiNoteRangeStart ∧
          midiNoteNumber ≤ currentNoteData.midiNoteRangeEnd then
        some currentNoteData
      else if midiNoteNumber < currentNoteData.midiNoteRangeStart then
        bsearchLoop instrumentData midiNoteNumber fuel low (mid - 1)
      else
        bsearchLoop instrumentData midiNoteNumber fuel (mid + 1) high
    else none

/-- The fallback linear scan of `getClosestSpriteNoteData`: starting from
`closest = instrumentData[0]` and `minDiff = |midiNoteNumber - closest.midiNoteNumber|`,
walk the rest of the array keeping the entry whose `midiNoteNumber` is
strictly closer. -/
def closestScan (midiNoteNumber : ℤ) (first : AudioSpriteNoteData)
    (rest : List AudioSpriteNoteData) : AudioSpriteNoteData :=
  (rest.foldl
    (fun (acc : AudioSpriteNoteData × ℤ) current =>
      let currentDiff := |midiNoteNumber - current.midiNoteNumber|
      if currentDiff < acc.2 then (current, currentDiff) else acc)
    (first, |midiNoteNumber - first.midiNoteNumber|)).1

/-- Error kinds thrown by `getClosestSpriteNoteData`: the `TypeError` for an
unknown instrument and the `Error` for an empty descriptor array. -/
inductive ResolveErr where
  | unknownInstrument (instrumentAudio : String)
  | emptyCatalog (instrumentAudio : String)
deriving DecidableEq, Repr

deriving instance DecidableEq for Except

/-- `getClosestSpriteNoteData`: resolves an instrument name and MIDI note
number to the descriptor covering it.  Returns the descriptor together with
a `Bool` that is `true` exactly when the `console.warn` fallback path ran. -/
def getClosestSpriteNoteData (audioSpriteInstrumentsData : Option AudioSpriteInstrumentsData)
    (instrumentAudio : String) (midiNoteNumber : ℤ) :
    Except ResolveErr (AudioSpriteNoteData × Bool) :=
  match audioSpriteInstrumentsData.bind (fun d => d.lookup instrumentAudio) with
  | none => .error (.unknownInstrument instrumentAudio)
  | some instrumentData =>
    match instrumentData with
    | [] => .error (.emptyCatalog instrumentAudio)
    | first :: rest =>
      let instrumentDataNE := first :: rest
      match bsearchLoop instrumentDataNE midiNoteNumber (instrumentDataNE.length + 1)
          0 ((instrumentDataNE.length : ℤ) - 1) with
      | some result => .ok (result, false)
      | none =>
        -- Case 1: below the lowest defined range: extend the first sprite down to 0
        if midiNoteNumber < first.midiNoteRangeStart then
          .ok ({ first with midiNoteRangeStart := 0 }, false)
        else
          -- Case 2: above the highest defined range: extend the last sprite up to 127
          let lastData := rest.getLastD first
          if midiNoteNumber > lastData.midiNoteRangeEnd then
            .ok ({ lastData with midiNoteRangeEnd := 127 }, false)
          else
            -- console.warn fallback: closest by sampled pitch
            .ok (closestScan midiNoteNumber first rest, true)

/-- Descriptor sequence sorted ascending by `rangeStart` (index form). -/
def sortedByRangeStart (instrumentData : List AudioSpriteNoteData) : Prop :=
  ∀ j, j < instrumentData.length → ∀ i, i < j →
    rangeStartAt instrumentData i ≤ rangeStartAt instrumentData j

/-- Two inclusive integer ranges overlap iff each starts at or before the
other ends (the standard interval-intersection condition). -/
def rangesOverlap (a b : AudioSpriteNoteData) : Prop :=
  a.midiNoteRangeStart ≤ b.midiNoteRangeEnd ∧ b.midiNoteRangeStart ≤ a.midiNoteRangeEnd

/-- Pairwise non-overlapping inclusive ranges. -/
def pairwiseNonOverlapping (instrumentData : List AudioSpriteNoteData) : Prop :=
  ∀ j, j < instrumentData.length → ∀ i, i < j →
    ¬ rangesOverlap (noteDataAt instrumentData i) (noteDataAt instrumentData j)

/-- Every descriptor has a well-formed range (`rangeStart ≤ rangeEnd`). -/
def nonemptyRanges (instrumentData : List AudioSpriteNoteData) : Prop :=
  ∀ i, i < instrumentData.length →
    rangeStartAt instrumentData i ≤ rangeEndAt instrumentData i

/-- Contiguous coverage of the MIDI domain [0,127]: the first range starts
at or below 0, the last ends at or above 127, and each range starts right
after its predecessor ends. -/
def contiguouslyCovers (instrumentData : List AudioSpriteNoteData) : Prop :=
  rangeStartAt instrumentData 0 ≤ 0 ∧
  127 ≤ rangeEndAt instrumentData (instrumentData.length - 1) ∧
  ∀ i, i < instrumentData.length - 1 →
    rangeStartAt instrumentData (i + 1) = rangeEndAt instrumentData i + 1

instance (d : List AudioSpriteNoteData) : Decidable (sortedByRangeStart d) := by
  unfold sortedByRangeStart; infer_instance

instance (d : List AudioSpriteNoteData) : Decidable (pairwiseNonOverlapping d) := by
  unfold pairwiseNonOverlapping rangesOverlap; infer_instance

instance (d : List AudioSpriteNoteData) : Decidable (nonemptyRanges d) := by
  unfold nonemptyRanges; infer_instance

instance (d : List AudioSpriteNoteData) : Decidable (contiguouslyCovers d) := by
  unfold contiguouslyCovers; infer_instance

lemma rangeStartAt_eq (instrumentData : List AudioSpriteNoteData) (i : ℕ) :
    rangeStartAt instrumentData i = (noteDataAt instrumentData i).midiNoteRangeStart := rfl

lemma rangeEndAt_eq (instrumentData : List AudioSpriteNoteData) (i : ℕ) :
    rangeEndAt instrumentData i = (noteDataAt instrumentData i).midiNoteRangeEnd := rfl

/-- Soundness of the binary-search loop: a returned descriptor is an entry
of the array and its inclusive range contains the requested note. -/
lemma bsearchLoop_eq_some {instrumentData : List AudioSpriteNoteData} {p : ℤ} :
    ∀ (fuel : ℕ) (low high : ℤ) {d : AudioSpriteNoteData},
      0 ≤ low → high < (instrumentData.length : ℤ) →
      bsearchLoop instrumentData p fuel low high = some d →
      (∃ i, i < instrumentData.length ∧ noteDataAt instrumentData i = d) ∧
        d.midiNoteRangeStart ≤ p ∧ p ≤ d.midiNoteRangeEnd := by
  intro fuel
  induction fuel with
  | zero =>
    intro low high d _ _ h
    simp [bsearchLoop] at h
  | succ n ih =>
    intro low high d hlow hhigh h
    simp only [bsearchLoop] at h
    by_cases hlh : low ≤ high
    · rw [if_pos hlh] at h
      by_cases hc : p ≥ (noteDataAt instrumentData ((low + high) / 2).toNat).midiNoteRangeStart ∧
          p ≤ (noteDataAt instrumentData ((low + high) / 2).toNat).midiNoteRangeEnd
      · rw [if_pos hc] at h
        obtain rfl : noteDataAt instrumentData ((low + high) / 2).toNat = d :=
          Option.some.inj h
        refine ⟨⟨((low + high) / 2).toNat, ?_, rfl⟩, hc.1, hc.2⟩
        omega
      · rw [if_neg hc] at h
        by_cases hlt : p < (noteDataAt instrumentData ((low + high) / 2).toNat).midiNoteRangeStart
        · rw [if_pos hlt] at h
          exact ih low ((low + high) / 2 - 1) hlow (by omega) h
        · rw [if_neg hlt] at h
          exact ih ((low + high) / 2 + 1) high (by omega) hhigh h
    · rw [if_neg hlh] at h
      exact absurd h (by simp)

/-- If no entry's range contains the requested note, the binary-search loop
returns `none`. -/
lemma bsearchLoop_eq_none {instrumentData : List AudioSpriteNoteData} {p : ℤ}
    (hnone : ∀ i, i < instrumentData.length →
      ¬(rangeStartAt instrumentData i ≤ p ∧ p ≤ rangeEndAt instrumentData i))
    (fuel : ℕ) (low high : ℤ) (hlow : 0 ≤ low) (hhigh : high < (instrumentData.length : ℤ)) :
    bsearchLoop instrumentData p fuel low high = none := by
  cases hres : bsearchLoop instrumentData p fuel low high with
  | none => rfl
  | some d =>
    exfalso
    obtain ⟨⟨i, hi, hd⟩, h1, h2⟩ := bsearchLoop_eq_some fuel low high hlow hhigh hres
    exact hnone i hi ⟨by rw [rangeStartAt, hd]; exact h1, by rw [rangeEndAt, hd]; exact h2⟩

/-- Completeness of the binary-search loop on sorted, contiguous data: if
some index `i` between `low` and `high` covers the requested note, the loop
finds a covering descriptor (given enough fuel). -/
lemma bsearchLoop_finds {instrumentData : List AudioSpriteNoteData} {p : ℤ}
    (hsorted : sortedByRangeStart instrumentData)
    (hcontig : ∀ i, i < instrumentData.length - 1 →
      rangeStartAt instrumentData (i + 1) = rangeEndAt instrumentData i + 1) :
    ∀ (fuel : ℕ) (low high : ℤ) (i : ℕ),
      i < instrumentData.length →
      rangeStartAt instrumentData i ≤ p → p ≤ rangeEndAt instrumentData i →
      0 ≤ low → low ≤ (i : ℤ) → (i : ℤ) ≤ high → high < (instrumentData.length : ℤ) →
      (high - low).toNat < fuel →
      ∃ d, bsearchLoop instrumentData p fuel low high = some d ∧
        d.midiNoteRangeStart ≤ p ∧ p ≤ d.midiNoteRangeEnd := by
  intro fuel
  induction fuel with
  | zero =>
    intro low high i _ _ _ _ h1 h2 _ hfuel
    omega
  | succ n ih =>
    intro low high i hi hs he hlow hli hih hhigh hfuel
    have hlh : low ≤ high := by omega
    have hmid1 : low ≤ (low + high) / 2 := by omega
    have hmid2 : (low + high) / 2 ≤ high := by omega
    have hmidn : ((low + high) / 2).toNat < instrumentData.length := by omega
    simp only [bsearchLoop]
    rw [if_pos hlh]
    by_cases hc : p ≥ (noteDataAt instrumentData ((low + high) / 2).toNat).midiNoteRangeStart ∧
        p ≤ (noteDataAt instrumentData ((low + high) / 2).toNat).midiNoteRangeEnd
    · rw [if_pos hc]
      exact ⟨_, rfl, hc.1, hc.2⟩
    · rw [if_neg hc]
      by_cases hlt : p < (noteDataAt instrumentData ((low + high) / 2).toNat).midiNoteRangeStart
      · rw [if_pos hlt]
        -- the covering index is strictly left of mid
        have hileft : (i : ℤ) < (low + high) / 2 := by
          by_contra hcon
          push_neg at hcon
          rcases Nat.lt_or_ge ((low + high) / 2).toNat i with hlt2 | hge
          · have hmono := hsorted i hi ((low + high) / 2).toNat hlt2
            simp only [rangeStartAt_eq] at hmono hs
            omega
          · have hieq : i = ((low + high) / 2).toNat := by omega
            rw [rangeStartAt_eq, hieq] at hs
            omega
        exact ih low ((low + high) / 2 - 1) i hi hs he hlow hli (by omega) (by omega) (by omega)
      · rw [if_neg hlt]
        push_neg at hlt
        have hgt : (noteDataAt instrumentData ((low + high) / 2).toNat).midiNoteRangeEnd < p := by
          by_contra hcon
          push_neg at hcon
          exact hc ⟨hlt, hcon⟩
        -- the covering index is strictly right of mid
        have hiright : (low + high) / 2 < (i : ℤ) := by
          by_contra hcon
          push_neg at hcon
          rcases Nat.lt_or_ge i ((low + high) / 2).toNat with hlt2 | hge
          · have hstep := hcontig i (by omega)
            have hmono : rangeStartAt instrumentData (i + 1) ≤
                rangeStartAt instrumentData ((low + high) / 2).toNat := by
              rcases Nat.lt_or_ge (i + 1) ((low + high) / 2).toNat with hlt3 | hge3
              · exact hsorted ((low + high) / 2).toNat hmidn (i + 1) hlt3
              · have h4 : i + 1 = ((low + high) / 2).toNat := by omega
                rw [h4]
            simp only [rangeStartAt_eq, rangeEndAt_eq] at hmono hstep he
            omega
          · have hieq : i = ((low + high) / 2).toNat := by omega
            rw [rangeEndAt_eq, hieq] at he
            omega
        exact ih ((low + high) / 2 + 1) high i hi hs he (by omega) (by omega) hih hhigh (by omega)

/-- On a catalog that contiguously covers [0,127], every pitch in [0,127]
lies in the inclusive range of some entry. -/
lemma exists_covering_index {instrumentData : List AudioSpriteNoteData}
    (hcover : contiguouslyCovers instrumentData) (hne : instrumentData ≠ []) {p : ℤ}
    (hp0 : 0 ≤ p) (hp127 : p ≤ 127) :
    ∃ i, i < instrumentData.length ∧
      rangeStartAt instrumentData i ≤ p ∧ p ≤ rangeEndAt instrumentData i := by
  obtain ⟨h0, hlast, hstep⟩ := hcover
  have hn : 0 < instrumentData.length := List.length_pos.mpr hne
  set P : ℕ → Prop := fun i => rangeStartAt instrumentData i ≤ p with hP
  have hP0 : P 0 := le_trans h0 hp0
  set k := Nat.findGreatest P (instrumentData.length - 1) with hk
  have hkP : P k := Nat.findGreatest_spec (Nat.zero_le _) hP0
  have hkle : k ≤ instrumentData.length - 1 :=
    Nat.findGreatest_le (instrumentData.length - 1)
  have hklen : k < instrumentData.length := by omega
  refine ⟨k, hklen, hkP, ?_⟩
  rcases Nat.lt_or_ge k (instrumentData.length - 1) with hklt | hkge
  · have hgt2 : Nat.findGreatest P (instrumentData.length - 1) < k + 1 := by omega
    have hle2 : k + 1 ≤ instrumentData.length - 1 := by omega
    have hnotP : ¬P (k + 1) := Nat.findGreatest_is_greatest hgt2 hle2
    have := hstep k hklt
    rw [hP] at hnotP
    push_neg at hnotP
    omega
  · have hkeq : k = instrumentData.length - 1 := by omega
    rw [hkeq]
    exact le_trans hp127 hlast

/-- C1: for an instrument whose descriptor sequence is sorted ascending by
`rangeStart`, has pairwise non-overlapping inclusive ranges and contiguously
covers [0,127], `getClosestSpriteNoteData` returns, for every integer pitch
in [0,127], a descriptor whose inclusive range contains that pitch. -/
theorem c1_resolve_contains_pitch (data : AudioSpriteInstrumentsData)
    (instrumentAudio : String) (instrumentData : List AudioSpriteNoteData) (p : ℤ)
    (hlook : data.lookup instrumentAudio = some instrumentData)
    (hsorted : sortedByRangeStart instrumentData)
    (hdisj : pairwiseNonOverlapping instrumentData)
    (hcover : contiguouslyCovers instrumentData)
    (hp0 : 0 ≤ p) (hp127 : p ≤ 127) :
    ∃ d w, getClosestSpriteNoteData (some data) instrumentAudio p = .ok (d, w) ∧
      d.midiNoteRangeStart ≤ p ∧ p ≤ d.midiNoteRangeEnd := by
  have hne : instrumentData ≠ [] := by
    intro hnil
    have h127 := hcover.2.1
    rw [hnil] at h127
    simp [rangeEndAt_eq, noteDataAt, defaultSpriteNoteData] at h127
  obtain ⟨i, hi, hs, he⟩ := exists_covering_index hcover hne hp0 hp127
  obtain ⟨first, rest, rfl⟩ := List.exists_cons_of_ne_nil hne
  obtain ⟨d, hd, hds, hde⟩ :=
    bsearchLoop_finds hsorted hcover.2.2 ((first :: rest).length + 1) 0
      (((first :: rest).length : ℤ) - 1) i hi hs he (by omega) (by omega) (by omega)
      (by omega) (by omega)
  refine ⟨d, false, ?_, hds, hde⟩
  simp only [getClosestSpriteNoteData, Option.some_bind, hlook, hd]

/-- Example data: a two-descriptor guitar catalog, sorted, disjoint and
contiguously covering [0,127]. -/
def exLow : AudioSpriteNoteData :=
  { midiNoteNumber := 60, midiNoteRangeStart := 0, midiNoteRangeEnd := 63
    noteStart := 0, noteDuration := 2 }

def exHigh : AudioSpriteNoteData :=
  { midiNoteNumber := 70, midiNoteRangeStart := 64, midiNoteRangeEnd := 127
    noteStart := 2, noteDuration := 3, loopStart := some 2, loopEnd := some 3 }

def exCatalog : AudioSpriteInstrumentsData := [("guitar", [exLow, exHigh])]

theorem c1_resolve_contains_pitch_witness :
    (exCatalog.lookup "guitar" = some [exLow, exHigh] ∧
      sortedByRangeStart [exLow, exHigh] ∧ pairwiseNonOverlapping [exLow, exHigh] ∧
      contiguouslyCovers [exLow, exHigh] ∧ (0 : ℤ) ≤ 100 ∧ (100 : ℤ) ≤ 127) ∧
    (∃ d w, getClosestSpriteNoteData (some exCatalog) "guitar" 100 = .ok (d, w) ∧
      d.midiNoteRangeStart ≤ 100 ∧ 100 ≤ d.midiNoteRangeEnd) :=
  ⟨⟨by decide, by decide, by decide, by decide, by decide, by decide⟩,
   c1_resolve_contains_pitch exCatalog "guitar" [exLow, exHigh] 100 (by decide)
     (by decide) (by decide) (by decide) (by decide) (by decide)⟩

/-- C8: resolution fails with the unknown-instrument error kind when the
catalog has no entry for the requested name, and with the empty-catalog
error kind when the entry's descriptor array is empty; in both cases an
error (not a descriptor) is returned. -/
theorem c8_resolve_error_kinds (data : AudioSpriteInstrumentsData)
    (instrumentAudio : String) (p : ℤ) :
    (data.lookup instrumentAudio = none →
      getClosestSpriteNoteData (some data) instrumentAudio p =
        .error (.unknownInstrument instrumentAudio)) ∧
    (data.lookup instrumentAudio = some [] →
      getClosestSpriteNoteData (some data) instrumentAudio p =
        .error (.emptyCatalog instrumentAudio)) := by
  constructor <;> intro h <;> simp [getClosestSpriteNoteData, h]

/-- Example data: a catalog entry with an empty descriptor array. -/
def emptyCatalogData : AudioSpriteInstrumentsData := [("empty", [])]

theorem c8_resolve_error_kinds_witness :
    (exCatalog.lookup "piano" = none ∧
      getClosestSpriteNoteData (some exCatalog) "piano" 60 =
        .error (.unknownInstrument "piano")) ∧
    (emptyCatalogData.lookup "empty" = some [] ∧
      getClosestSpriteNoteData (some emptyCatalogData) "empty" 60 =
        .error (.emptyCatalog "empty")) :=
  ⟨⟨by decide, (c8_resolve_error_kinds exCatalog "piano" 60).1 (by decide)⟩,
   ⟨by decide, (c8_resolve_error_kinds emptyCatalogData "empty" 60).2 (by decide)⟩⟩

/-- `instrumentData[instrumentData.length - 1]` is the last element. -/
lemma getLastD_eq_noteDataAt :
    ∀ (rest : List AudioSpriteNoteData) (first : AudioSpriteNoteData),
      rest.getLastD first = noteDataAt (first :: rest) rest.length := by
  intro rest
  induction rest with
  | nil => intro first; rfl
  | cons b t ih =>
    intro first
    rw [List.getLastD_cons, ih b]
    simp [noteDataAt]

/-- One step of the fallback scan: scanning `b :: t` from accumulator `a`
keeps whichever of `a`, `b` is strictly closer and scans `t` from it. -/
lemma closestScan_cons (p : ℤ) (a b : AudioSpriteNoteData) (t : List AudioSpriteNoteData) :
    closestScan p a (b :: t) =
      if |p - b.midiNoteNumber| < |p - a.midiNoteNumber| then closestScan p b t
      else closestScan p a t := by
  simp only [closestScan, List.foldl_cons]
  by_cases h : |p - b.midiNoteNumber| < |p - a.midiNoteNumber| <;> simp [h]

/-- The fallback scan returns an entry of the array whose sampled pitch has
minimal absolute distance to the requested note. -/
lemma closestScan_spec (p : ℤ) :
    ∀ (rest : List AudioSpriteNoteData) (first : AudioSpriteNoteData),
      closestScan p first rest ∈ first :: rest ∧
      ∀ x ∈ first :: rest,
        |p - (closestScan p first rest).midiNoteNumber| ≤ |p - x.midiNoteNumber| := by
  intro rest
  induction rest with
  | nil =>
    intro first
    refine ⟨by simp [closestScan], ?_⟩
    intro x hx
    rw [List.mem_singleton] at hx
    rw [hx]
    simp [closestScan]
  | cons b t ih =>
    intro first
    rw [closestScan_cons]
    by_cases h : |p - b.midiNoteNumber| < |p - first.midiNoteNumber|
    · rw [if_pos h]
      obtain ⟨hmem, hmin⟩ := ih b
      constructor
      · exact List.mem_cons_of_mem _ hmem
      · intro x hx
        rcases List.mem_cons.mp hx with rfl | hx2
        · exact le_trans (hmin b (List.mem_cons_self _ _)) (le_of_lt h)
        · exact hmin x hx2
    · rw [if_neg h]
      push_neg at h
      obtain ⟨hmem, hmin⟩ := ih first
      constructor
      · rcases List.mem_cons.mp hmem with h1 | h1
        · rw [h1]
          exact List.mem_cons_self _ _
        · exact List.mem_cons_of_mem _ (List.mem_cons_of_mem _ h1)
      · intro x hx
        rcases List.mem_cons.mp hx with rfl | hx2
        · exact hmin x (List.mem_cons_self _ _)
        · rcases List.mem_cons.mp hx2 with rfl | hx3
          · exact le_trans (hmin first (List.mem_cons_self _ _)) h
          · exact hmin x (List.mem_cons_of_mem _ hx3)

/-- C5: when the catalog entry is non-empty, no descriptor's inclusive range
contains the pitch, and the pitch is neither below the first descriptor's
`rangeStart` nor above the last descriptor's `rangeEnd` (a genuine gap),
resolution returns a descriptor with minimal `|pitch - sampledPitch|` over
the whole sequence, with the diagnostic-warning flag set. -/
theorem c5_gap_fallback (data : AudioSpriteInstrumentsData) (instrumentAudio : String)
    (instrumentData : List AudioSpriteNoteData) (p : ℤ)
    (hlook : data.lookup instrumentAudio = some instrumentData)
    (hne : instrumentData ≠ [])
    (hnocover : ∀ i, i < instrumentData.length →
      ¬(rangeStartAt instrumentData i ≤ p ∧ p ≤ rangeEndAt instrumentData i))
    (hlow : rangeStartAt instrumentData 0 ≤ p)
    (hhigh : p ≤ rangeEndAt instrumentData (instrumentData.length - 1)) :
    ∃ d, getClosestSpriteNoteData (some data) instrumentAudio p = .ok (d, true) ∧
      d ∈ instrumentData ∧
      ∀ x ∈ instrumentData, |p - d.midiNoteNumber| ≤ |p - x.midiNoteNumber| := by
  obtain ⟨first, rest, rfl⟩ := List.exists_cons_of_ne_nil hne
  have hbs := bsearchLoop_eq_none hnocover ((first :: rest).length + 1) 0
      (((first :: rest).length : ℤ) - 1) (by omega) (by omega)
  have hg1 : ¬ (p < first.midiNoteRangeStart) := by
    have hfirst : rangeStartAt (first :: rest) 0 = first.midiNoteRangeStart := rfl
    omega
  have hlen : (first :: rest).length - 1 = rest.length := by simp
  have hg2 : ¬ (p > (rest.getLastD first).midiNoteRangeEnd) := by
    rw [getLastD_eq_noteDataAt]
    rw [hlen, rangeEndAt_eq] at hhigh
    omega
  obtain ⟨hmem, hmin⟩ := closestScan_spec p rest first
  refine ⟨closestScan p first rest, ?_, hmem, hmin⟩
  simp only [getClosestSpriteNoteData, Option.some_bind, hlook, hbs]
  rw [if_neg hg1, if_neg hg2]

/-- Example data: a catalog with a genuine gap between (0,10) and (20,127). -/
def gapLow : AudioSpriteNoteData :=
  { midiNoteNumber := 5, midiNoteRangeStart := 0, midiNoteRangeEnd := 10
    noteStart := 0, noteDuration := 1 }

def gapHigh : AudioSpriteNoteData :=
  { midiNoteNumber := 21, midiNoteRangeStart := 20, midiNoteRangeEnd := 127
    noteStart := 1, noteDuration := 1 }

def gapCatalog : AudioSpriteInstrumentsData := [("gap", [gapLow, gapHigh])]

theorem c5_gap_fallback_witness :
    ((∀ i, i < ([gapLow, gapHigh] : List AudioSpriteNoteData).length →
        ¬(rangeStartAt [gapLow, gapHigh] i ≤ 15 ∧ 15 ≤ rangeEndAt [gapLow, gapHigh] i)) ∧
      rangeStartAt [gapLow, gapHigh] 0 ≤ 15 ∧
      (15 : ℤ) ≤ rangeEndAt [gapLow, gapHigh] (([gapLow, gapHigh] : List AudioSpriteNoteData).length - 1)) ∧
    (∃ d, getClosestSpriteNoteData (some gapCatalog) "gap" 15 = .ok (d, true) ∧
      d ∈ ([gapLow, gapHigh] : List AudioSpriteNoteData) ∧
      ∀ x ∈ ([gapLow, gapHigh] : List AudioSpriteNoteData),
        |(15 : ℤ) - d.midiNoteNumber| ≤ |(15 : ℤ) - x.midiNoteNumber|) :=
  ⟨⟨by decide, by decide, by decide⟩,
   c5_gap_fallback gapCatalog "gap" [gapLow, gapHigh] 15 (by decide) (by decide)
     (by decide) (by decide) (by decide)⟩

/-- C4 (amended): for a non-empty descriptor sequence sorted by `rangeStart`,
a pitch strictly below the first descriptor's `rangeStart` resolves to a copy
of the first descriptor with `rangeStart` replaced by 0 and all other fields
unchanged; and — additionally assuming the ranges are pairwise non-overlapping
and each descriptor has `rangeStart ≤ rangeEnd` — a pitch strictly above the
last descriptor's `rangeEnd` resolves to a copy of the last descriptor with
`rangeEnd` replaced by 127 and all other fields unchanged. -/
theorem c4_boundary_widening (data : AudioSpriteInstrumentsData)
    (instrumentAudio : String) (first : AudioSpriteNoteData)
    (rest : List AudioSpriteNoteData) (p : ℤ)
    (hlook : data.lookup instrumentAudio = some (first :: rest))
    (hsorted : sortedByRangeStart (first :: rest)) :
    (p < first.midiNoteRangeStart →
      getClosestSpriteNoteData (some data) instrumentAudio p =
        .ok ({ first with midiNoteRangeStart := 0 }, false)) ∧
    (pairwiseNonOverlapping (first :: rest) → nonemptyRanges (first :: rest) →
      p > (rest.getLastD first).midiNoteRangeEnd →
      getClosestSpriteNoteData (some data) instrumentAudio p =
        .ok ({ rest.getLastD first with midiNoteRangeEnd := 127 }, false)) := by
  constructor
  · intro hp
    have hnocover : ∀ i, i < (first :: rest).length →
        ¬(rangeStartAt (first :: rest) i ≤ p ∧ p ≤ rangeEndAt (first :: rest) i) := by
      intro i hi hcon
      have hs0 : rangeStartAt (first :: rest) 0 ≤ rangeStartAt (first :: rest) i := by
        rcases Nat.eq_zero_or_pos i with h0 | hpos
        · rw [h0]
        · exact hsorted i hi 0 hpos
      have hfirst : rangeStartAt (first :: rest) 0 = first.midiNoteRangeStart := rfl
      omega
    have hbs := bsearchLoop_eq_none hnocover ((first :: rest).length + 1) 0
        (((first :: rest).length : ℤ) - 1) (by omega) (by omega)
    simp only [getClosestSpriteNoteData, Option.some_bind, hlook, hbs]
    rw [if_pos hp]
  · intro hdisj hnonempty hp
    have hlast := getLastD_eq_noteDataAt rest first
    have hplast : (noteDataAt (first :: rest) rest.length).midiNoteRangeEnd < p := by
      rw [← hlast]
      exact hp
    have hlenlt : rest.length < (first :: rest).length := by simp
    have hnocover : ∀ i, i < (first :: rest).length →
        ¬(rangeStartAt (first :: rest) i ≤ p ∧ p ≤ rangeEndAt (first :: rest) i) := by
      intro i hi hcon
      simp only [rangeStartAt_eq, rangeEndAt_eq] at hcon
      rcases Nat.lt_or_ge i rest.length with hilt | hige
      · have hov := hdisj rest.length hlenlt i hilt
        have hso := hsorted rest.length hlenlt i hilt
        have hnel := hnonempty rest.length hlenlt
        have hnei := hnonempty i hi
        rw [rangesOverlap] at hov
        simp only [rangeStartAt_eq, rangeEndAt_eq] at hso hnel hnei
        omega
      · have hilen : i < rest.length + 1 := by simpa using hi
        have hieq : i = rest.length := by omega
        rw [hieq] at hcon
        omega
    have hbs := bsearchLoop_eq_none hnocover ((first :: rest).length + 1) 0
        (((first :: rest).length : ℤ) - 1) (by omega) (by omega)
    have hg1 : ¬ (p < first.midiNoteRangeStart) := by
      have hnel := hnonempty rest.length hlenlt
      have hs0 : rangeStartAt (first :: rest) 0 ≤ rangeStartAt (first :: rest) rest.length := by
        rcases Nat.eq_zero_or_pos rest.length with h0 | hpos
        · rw [h0]
        · exact hsorted rest.length hlenlt 0 hpos
      simp only [rangeStartAt_eq, rangeEndAt_eq] at hnel hs0
      have hfirst : noteDataAt (first :: rest) 0 = first := rfl
      rw [hfirst] at hs0
      omega
    simp only [getClosestSpriteNoteData, Option.some_bind, hlook, hbs]
    rw [if_neg hg1, if_pos hp]

/-- Example data: two descriptors sorted by `rangeStart` whose ranges overlap
(the first covers [0,127], the second only [10,20]). -/
def ovFirst : AudioSpriteNoteData :=
  { midiNoteNumber := 60, midiNoteRangeStart := 0, midiNoteRangeEnd := 127
    noteStart := 0, noteDuration := 2 }

def ovLast : AudioSpriteNoteData :=
  { midiNoteNumber := 100, midiNoteRangeStart := 10, midiNoteRangeEnd := 20
    noteStart := 2, noteDuration := 2 }

def ovCatalog : AudioSpriteInstrumentsData := [("overlap", [ovFirst, ovLast])]

/-- C4 counterexample: a non-empty sequence sorted by `rangeStart` with
well-formed ranges, and pitch 125 strictly above the last descriptor's
`rangeEnd` (20) — yet resolution returns the first descriptor unchanged
(its range [0,127] already contains 125), not the last descriptor widened
to `rangeEnd = 127`. -/
theorem c4_boundary_widening_counterexample :
    sortedByRangeStart [ovFirst, ovLast] ∧
    nonemptyRanges [ovFirst, ovLast] ∧
    (125 : ℤ) > ovLast.midiNoteRangeEnd ∧
    getClosestSpriteNoteData (some ovCatalog) "overlap" 125 = .ok (ovFirst, false) ∧
    ovFirst ≠ { ovLast with midiNoteRangeEnd := 127 } :=
  ⟨by decide, by decide, by decide, by decide, by decide⟩

/-- Example data: a catalog whose ranges cover only [5,120], for exercising
both boundary widenings. -/
def widenLow : AudioSpriteNoteData :=
  { midiNoteNumber := 60, midiNoteRangeStart := 5, midiNoteRangeEnd := 63
    noteStart := 0, noteDuration := 2 }

def widenHigh : AudioSpriteNoteData :=
  { midiNoteNumber := 70, midiNoteRangeStart := 64, midiNoteRangeEnd := 120
    noteStart := 2, noteDuration := 3 }

def widenCatalog : AudioSpriteInstrumentsData := [("w", [widenLow, widenHigh])]

theorem c4_boundary_widening_witness :
    getClosestSpriteNoteData (some widenCatalog) "w" 0 =
      .ok ({ widenLow with midiNoteRangeStart := 0 }, false) ∧
    getClosestSpriteNoteData (some widenCatalog) "w" 127 =
      .ok ({ widenHigh with midiNoteRangeEnd := 127 }, false) :=
  ⟨(c4_boundary_widening widenCatalog "w" widenLow [widenHigh] 0 (by decide)
      (by decide)).1 (by decide),
   (c4_boundary_widening widenCatalog "w" widenLow [widenHigh] 127 (by decide)
      (by decide)).2 (by decide) (by decide) (by decide)⟩

/-- Configuration of the created `AudioBufferSourceNode` as set by
`webNotePlayerOn`: loop flag and loop points (Web Audio defaults `false`,
`0`, `0`) and the detune value in cents (default `0`).  The shared sprite
buffer assigned to `buffer.buffer` and the node graph wiring carry no
per-note information and are not modelled. -/
structure BufferSource where
  loop : Bool := false
  loopStart : ℚ := 0
  loopEnd : ℚ := 0
  detune : ℤ := 0
deriving DecidableEq, Repr

/-- A voice as stored in `webNoteAudioBuffers`: the source node together
with its gain node (modelled by the gain value). -/
structure WebNoteVoice where
  buffer : BufferSource
  gain : ℚ
deriving DecidableEq, Repr

/-- Mutable module state: the audio context (modelled by its `currentTime`
when initialized), the loaded instrument catalog, and the voice registry
`webNoteAudioBuffers` (a JS record keyed by uuid). -/
structure PlayerState where
  webNoteAudioContext : Option ℚ
  audioSpriteInstrumentsData : Option AudioSpriteInstrumentsData
  webNoteAudioBuffers : String → Option WebNoteVoice

/-- The gain-envelope time constant (source value 0.05). -/
def GAIN_TIME_CONSTANT : ℚ := 5 / 100

/-- The extra play/fade duration added to finite notes (source value 0.3). -/
def EXTRA_NOTE_DURATION : ℚ := 3 / 10

/-- Observable outcome of `webNotePlayerOn`: a caught error (reported via
`console.error`) or the scheduling performed on the created nodes. -/
inductive NoteOnOutcome where
  /-- the audio context was not initialized -/
  | contextError
  /-- `getClosestSpriteNoteData` threw (caught at the function boundary) -/
  | resolveError (e : ResolveErr)
  /-- the `noteDuration === undefined` branch with a uuid:
  `buffer.start(startWhen, offset)` with no stop time, and the voice is
  registered under `uuid` -/
  | startedSustain (uuid : String) (startWhen : ℚ) (offset : ℚ) (voice : WebNoteVoice)
  /-- the `noteDuration === undefined` branch without a uuid: the thrown
  "a valid uuid must be supplied" error, caught at the function boundary -/
  | uuidRequiredError
  /-- the finite-duration branch:
  `gain.gain.setTargetAtTime(0, fadeAt, GAIN_TIME_CONSTANT)` then
  `buffer.start(startWhen, offset, playDuration)` where `effDuration` is the
  body's final `noteDuration`, `playDuration = effDuration + EXTRA_NOTE_DURATION`
  and `fadeAt = startWhen + effDuration` -/
  | startedFinite (startWhen : ℚ) (offset : ℚ) (effDuration : ℚ) (playDuration : ℚ)
      (fadeAt : ℚ) (voice : WebNoteVoice)
deriving DecidableEq, Repr

/-- `webNotePlayerOn`: plays a note.  JS default-parameter semantics apply:
an argument passed as `undefined` (`none`) is replaced by the declared
default before the body runs — in particular the declaration
`noteDuration: number | undefined = 1` replaces an undefined duration with
`1`, so the body's `noteDuration` always holds a number.  Thrown errors are
caught at the function boundary (`console.error`); the function returns the
updated state and the observable outcome. -/
def webNotePlayerOn (st : PlayerState) (instrumentAudio : String) (midiNoteNumber : ℤ)
    (uuid : Option String := none) (noteDurationArg : Option ℚ := none)
    (noteVolumeArg : Option ℚ := none) (noteDelayArg : Option ℚ := none) :
    PlayerState × NoteOnOutcome :=
  -- JS default parameters: undefined arguments take the declared defaults
  let noteDuration : Option ℚ := some (noteDurationArg.getD 1)
  let noteVolume : ℚ := noteVolumeArg.getD (6 / 10)
  let noteDelay : ℚ := noteDelayArg.getD 0
  match st.webNoteAudioContext with
  | none => (st, .contextError)
  | some currentTime =>
    match getClosestSpriteNoteData st.audioSpriteInstrumentsData instrumentAudio
        midiNoteNumber with
    | .error e => (st, .resolveError e)
    | .ok (closestSpriteNoteData, _warned) =>
      -- JS: undefined > x is false, so the first disjunct is false when undefined
      let isLongNote : Bool :=
        (match noteDuration with
          | some dd => if dd > closestSpriteNoteData.noteDuration then true else false
          | none => false) || noteDuration.isNone
      let buffer0 : BufferSource := {}
      let step : BufferSource × Option ℚ :=
        match isLongNote, closestSpriteNoteData.loopStart, closestSpriteNoteData.loopEnd with
        | true, some ls, some le =>
          ({ buffer0 with loopStart := ls, loopEnd := le, loop := true }, noteDuration)
        | isLong, _, _ =>
          ({ buffer0 with loop := false },
            if isLong then some closestSpriteNoteData.noteDuration else noteDuration)
      let buffer : BufferSource :=
        { step.1 with detune := (midiNoteNumber - closestSpriteNoteData.midiNoteNumber) * 100 }
      let gainValue : ℚ := noteVolume
      let noteStartTime : ℚ := currentTime + noteDelay
      match step.2 with
      | none =>
        -- must supply uuid, if using undefined/infinite noteDuration
        match uuid with
        | some u =>
          ({ st with webNoteAudioBuffers := fun k =>
              if k = u then some { buffer := buffer, gain := gainValue }
              else st.webNoteAudioBuffers k },
            .startedSustain u noteStartTime closestSpriteNoteData.noteStart
              { buffer := buffer, gain := gainValue })
        | none => (st, .uuidRequiredError)
      | some noteDurationFinal =>
        let noteEndTime := noteStartTime + noteDurationFinal
        (st, .startedFinite noteStartTime closestSpriteNoteData.noteStart
          noteDurationFinal (noteDurationFinal + EXTRA_NOTE_DURATION) noteEndTime
          { buffer := buffer, gain := gainValue })

/-- Observable outcome of `webNotePlayerOff`. -/
inductive NoteOffOutcome where
  /-- the audio context was not initialized (`console.error`) -/
  | contextError
  /-- `console.warn` about stopping a non-existent note -/
  | notActiveWarning (uuid : String)
  /-- `gain.gain.cancelScheduledValues(cancelFrom)`, then
  `gain.gain.setTargetAtTime(fadeTarget, fadeStart, fadeTimeConstant)`, then
  `buffer.stop(stopAt)` -/
  | stopped (cancelFrom : ℚ) (fadeTarget : ℚ) (fadeStart : ℚ) (fadeTimeConstant : ℚ)
      (stopAt : ℚ)
deriving DecidableEq, Repr

/-- `webNotePlayerOff`: stops the note registered under `uuid` by cancelling
scheduled gain changes, fading to silence from the current time, scheduling
a hard stop after `EXTRA_NOTE_DURATION`, and deleting the registry entry;
warns when no note is registered under `uuid`. -/
def webNotePlayerOff (st : PlayerState) (uuid : String) : PlayerState × NoteOffOutcome :=
  match st.webNoteAudioContext with
  | none => (st, .contextError)
  | some currentTime =>
    match st.webNoteAudioBuffers uuid with
    | some _ =>
      ({ st with webNoteAudioBuffers := fun k =>
          if k = uuid then none else st.webNoteAudioBuffers k },
        .stopped 0 0 currentTime GAIN_TIME_CONSTANT (currentTime + EXTRA_NOTE_DURATION))
    | none => (st, .notActiveWarning uuid)

/-- A request arriving through the `web-note-player-on` / `-off` event
listeners. -/
inductive PlayerRequest where
  | noteOn (instrumentAudio : String) (midiNoteNumber : ℤ) (uuid : Option String)
      (noteDuration : Option ℚ) (noteVolume : Option ℚ) (noteDelay : Option ℚ)
  | noteOff (uuid : String)

/-- State after handling one request. -/
def processRequest (st : PlayerState) : PlayerRequest → PlayerState
  | .noteOn a m u dur vol del => (webNotePlayerOn st a m u dur vol del).1
  | .noteOff u => (webNotePlayerOff st u).1

/-- State after handling a sequence of requests. -/
def processRequests (st : PlayerState) (requests : List PlayerRequest) : PlayerState :=
  requests.foldl processRequest st

/-- Example data: a player state after successful initialization with the
example catalog, current time 0 and no active voices. -/
def readyState : PlayerState :=
  { webNoteAudioContext := some 0
    audioSpriteInstrumentsData := some exCatalog
    webNoteAudioBuffers := fun _ => none }

/-- The `noteDuration === undefined` branch of `webNotePlayerOn` is
unreachable: the declared default `= 1` replaces an undefined argument, so
the state (in particular the voice registry) is never modified, and neither
the sustain registration nor the missing-uuid error can occur. -/
lemma webNotePlayerOn_no_sustain (st : PlayerState) (instrumentAudio : String)
    (midiNoteNumber : ℤ) (uuid : Option String)
    (noteDurationArg noteVolumeArg noteDelayArg : Option ℚ) :
    (webNotePlayerOn st instrumentAudio midiNoteNumber uuid noteDurationArg
      noteVolumeArg noteDelayArg).1 = st ∧
    (∀ u sw off voice, (webNotePlayerOn st instrumentAudio midiNoteNumber uuid
      noteDurationArg noteVolumeArg noteDelayArg).2 ≠ .startedSustain u sw off voice) ∧
    (webNotePlayerOn st instrumentAudio midiNoteNumber uuid noteDurationArg
      noteVolumeArg noteDelayArg).2 ≠ .uuidRequiredError := by
  unfold webNotePlayerOn
  cases st.webNoteAudioContext with
  | none => refine ⟨rfl, ?_, ?_⟩ <;> simp
  | some t =>
    cases getClosestSpriteNoteData st.audioSpriteInstrumentsData instrumentAudio
        midiNoteNumber with
    | error e => refine ⟨rfl, ?_, ?_⟩ <;> simp
    | ok dr =>
      obtain ⟨dd, w⟩ := dr
      rcases hls : dd.loopStart with _ | ls <;>
        rcases hle : dd.loopEnd with _ | le <;>
        by_cases hgt : noteDurationArg.getD 1 > dd.noteDuration <;>
        simp [hls, hle, hgt]

/-- `webNotePlayerOff` never adds registry entries. -/
lemma webNotePlayerOff_buffers_none (st : PlayerState) (uuid k : String)
    (h : st.webNoteAudioBuffers k = none) :
    ((webNotePlayerOff st uuid).1).webNoteAudioBuffers k = none := by
  unfold webNotePlayerOff
  cases st.webNoteAudioContext with
  | none => exact h
  | some t =>
    cases hv : st.webNoteAudioBuffers uuid with
    | none => exact h
    | some v => by_cases hk : k = uuid <;> simp [hk, h]

/-- Starting from an empty voice registry, handling any request sequence
leaves the registry empty. -/
lemma processRequests_buffers_none (requests : List PlayerRequest) :
    ∀ st : PlayerState, (∀ k, st.webNoteAudioBuffers k = none) →
      ∀ k, (processRequests st requests).webNoteAudioBuffers k = none := by
  induction requests with
  | nil => intro st h k; exact h k
  | cons r rs ih =>
    intro st h k
    rw [processRequests, List.foldl_cons]
    refine ih (processRequest st r) ?_ k
    intro k2
    cases r with
    | noteOn a m u dur vol del =>
      rw [processRequest,
        (webNotePlayerOn_no_sustain st a m u dur vol del).1]
      exact h k2
    | noteOff u => exact webNotePlayerOff_buffers_none st u k2 (h k2)

/-- C10: because `webNotePlayerOn` declares its duration parameter with a
default value of 1, an explicitly passed undefined duration is replaced by 1
before the body runs; the indefinite-sustain registration branch and the
missing-identifier error branch are therefore unreachable, no call modifies
`webNoteAudioBuffers`, and the voice registry stays empty under every
sequence of noteOn/noteOff requests started from an empty registry. -/
theorem c10_registry_stays_empty :
    (∀ (st : PlayerState) (instrumentAudio : String) (midiNoteNumber : ℤ)
        (uuid : Option String) (noteDurationArg noteVolumeArg noteDelayArg : Option ℚ),
      ((webNotePlayerOn st instrumentAudio midiNoteNumber uuid noteDurationArg
          noteVolumeArg noteDelayArg).1).webNoteAudioBuffers = st.webNoteAudioBuffers ∧
      (∀ u sw off voice, (webNotePlayerOn st instrumentAudio midiNoteNumber uuid
          noteDurationArg noteVolumeArg noteDelayArg).2 ≠ .startedSustain u sw off voice) ∧
      (webNotePlayerOn st instrumentAudio midiNoteNumber uuid noteDurationArg
          noteVolumeArg noteDelayArg).2 ≠ .uuidRequiredError) ∧
    (∀ (requests : List PlayerRequest) (st : PlayerState),
      (∀ k, st.webNoteAudioBuffers k = none) →
      ∀ k, (processRequests st requests).webNoteAudioBuffers k = none) := by
  constructor
  · intro st a m u dur vol del
    obtain ⟨h1, h2, h3⟩ := webNotePlayerOn_no_sustain st a m u dur vol del
    exact ⟨by rw [h1], h2, h3⟩
  · intro requests st h k
    exact processRequests_buffers_none requests st h k

theorem c10_registry_stays_empty_witness :
    ((webNotePlayerOn readyState "guitar" 60 (some "a") none none none).1).webNoteAudioBuffers =
      readyState.webNoteAudioBuffers ∧
    (∀ k, readyState.webNoteAudioBuffers k = none) ∧
    ∀ k, (processRequests readyState
      [.noteOn "guitar" 60 (some "a") none none none, .noteOff "a"]).webNoteAudioBuffers k =
        none :=
  ⟨(c10_registry_stays_empty.1 readyState "guitar" 60 (some "a") none none none).1,
   fun _ => rfl,
   c10_registry_stays_empty.2 [.noteOn "guitar" 60 (some "a") none none none, .noteOff "a"]
     readyState (fun _ => rfl)⟩

/-- C2 (code-bug evidence): a noteOn request on an initialized player with
`noteDuration` passed as undefined and identifier "a" supplied.  Because the
declared default `= 1` replaces the undefined argument, the body takes the
finite-duration branch: it schedules a 1-second note (fade at 1, play
duration 1 + EXTRA_NOTE_DURATION) and registers nothing — the returned state
is unchanged, so "a" is never added to the voice registry, contradicting the
claim and the function's own documentation of undefined durations. -/
theorem c2_sustain_registration_bug :
    webNotePlayerOn readyState "guitar" 60 (some "a") none none none =
      (readyState, .startedFinite (0 + 0) 0 1 (1 + EXTRA_NOTE_DURATION) (0 + 0 + 1)
        { buffer := { loop := false, loopStart := 0, loopEnd := 0, detune := 0 },
          gain := 6 / 10 }) := rfl

/-- C3 (code-bug evidence): a noteOn request on an initialized player with
`noteDuration` passed as undefined and no identifier supplied.  Because the
declared default `= 1` replaces the undefined argument, the
"a valid uuid must be supplied" error branch is not reached: the call starts
a finite 1-second playback instead of failing. -/
theorem c3_identifier_required_bug :
    webNotePlayerOn readyState "guitar" 60 none none none none =
      (readyState, .startedFinite (0 + 0) 0 1 (1 + EXTRA_NOTE_DURATION) (0 + 0 + 1)
        { buffer := { loop := false, loopStart := 0, loopEnd := 0, detune := 0 },
          gain := 6 / 10 }) := rfl

/-- C9: every noteOn request that resolves to a descriptor applies a detune
of exactly `(midiNoteNumber - descriptor.midiNoteNumber) * 100` cents to the
created source. -/
theorem c9_detune_cents (st : PlayerState) (instrumentAudio : String) (midiNoteNumber : ℤ)
    (uuid : Option String) (noteDurationArg noteVolumeArg noteDelayArg : Option ℚ)
    (t : ℚ) (d : AudioSpriteNoteData) (w : Bool)
    (hctx : st.webNoteAudioContext = some t)
    (hres : getClosestSpriteNoteData st.audioSpriteInstrumentsData instrumentAudio
      midiNoteNumber = .ok (d, w)) :
    ∃ sw off eff pd fa voice,
      (webNotePlayerOn st instrumentAudio midiNoteNumber uuid noteDurationArg
        noteVolumeArg noteDelayArg).2 = .startedFinite sw off eff pd fa voice ∧
      voice.buffer.detune = (midiNoteNumber - d.midiNoteNumber) * 100 := by
  unfold webNotePlayerOn
  rw [hctx, hres]
  rcases hls : d.loopStart with _ | ls <;>
    rcases hle : d.loopEnd with _ | le <;>
    by_cases hgt : noteDurationArg.getD 1 > d.noteDuration <;>
    simp [hls, hle, hgt] <;>
    exact ⟨_, _, _, _, _, _, ⟨rfl, rfl, rfl, rfl, rfl, rfl⟩, rfl⟩

theorem c9_detune_cents_witness :
    ∃ sw off eff pd fa voice,
      (webNotePlayerOn readyState "guitar" 63 none none none none).2 =
        .startedFinite sw off eff pd fa voice ∧
      voice.buffer.detune = 300 := by
  have h := c9_detune_cents readyState "guitar" 63 none none none none 0 exLow false
    rfl rfl
  exact h

/-- C6: for a finite requested duration that exceeds the resolved
descriptor's natural segment duration: if the descriptor defines no loop
points, looping stays disabled and the effective scheduled duration is
clamped down to the descriptor's `noteDuration`; if the descriptor defines
both loop points, the source is configured to loop between them (and the
requested duration is kept). -/
theorem c6_long_note_clamp_or_loop (st : PlayerState) (instrumentAudio : String)
    (midiNoteNumber : ℤ) (uuid : Option String) (dur : ℚ)
    (noteVolumeArg noteDelayArg : Option ℚ) (t : ℚ) (d : AudioSpriteNoteData) (w : Bool)
    (hctx : st.webNoteAudioContext = some t)
    (hres : getClosestSpriteNoteData st.audioSpriteInstrumentsData instrumentAudio
      midiNoteNumber = .ok (d, w))
    (hdur : d.noteDuration < dur) :
    ((d.loopStart = none ∧ d.loopEnd = none) →
      ∃ sw off pd fa voice,
        (webNotePlayerOn st instrumentAudio midiNoteNumber uuid (some dur)
          noteVolumeArg noteDelayArg).2 =
          .startedFinite sw off d.noteDuration pd fa voice ∧
        voice.buffer.loop = false) ∧
    (∀ ls le, d.loopStart = some ls → d.loopEnd = some le →
      ∃ sw off pd fa voice,
        (webNotePlayerOn st instrumentAudio midiNoteNumber uuid (some dur)
          noteVolumeArg noteDelayArg).2 =
          .startedFinite sw off dur pd fa voice ∧
        voice.buffer.loop = true ∧ voice.buffer.loopStart = ls ∧
        voice.buffer.loopEnd = le) := by
  constructor
  · rintro ⟨hls, hle⟩
    unfold webNotePlayerOn
    rw [hctx, hres]
    simp [hls, hle, hdur]
    exact ⟨_, _, _, _, _, ⟨rfl, rfl, rfl, rfl, rfl⟩, rfl⟩
  · intro ls le hls hle
    unfold webNotePlayerOn
    rw [hctx, hres]
    simp [hls, hle, hdur]
    exact ⟨_, _, _, _, _, ⟨rfl, rfl, rfl, rfl, rfl⟩, rfl, rfl, rfl⟩

theorem c6_long_note_clamp_witness :
    exLow.loopStart = none ∧ exLow.loopEnd = none ∧ exLow.noteDuration < 10 ∧
    ∃ sw off pd fa voice,
      (webNotePlayerOn readyState "guitar" 60 none (some 10) none none).2 =
        .startedFinite sw off 2 pd fa voice ∧
      voice.buffer.loop = false :=
  ⟨rfl, rfl, by decide,
   (c6_long_note_clamp_or_loop readyState "guitar" 60 none 10 none none 0 exLow false
     rfl rfl (by decide)).1 ⟨rfl, rfl⟩⟩

/-- C7: on an initialized player, a noteOff for an unregistered uuid only
reports a not-active warning and leaves everything unchanged; a noteOff for
a registered uuid cancels scheduled gain changes, schedules an exponential
fade to silence starting now, schedules the source stop after the
`EXTRA_NOTE_DURATION` grace padding, and removes the registry entry
immediately, so that a second noteOff for the same uuid reports the
not-active warning. -/
theorem c7_note_off_lifecycle (st : PlayerState) (t : ℚ) (uuid : String)
    (hctx : st.webNoteAudioContext = some t) :
    (st.webNoteAudioBuffers uuid = none →
      webNotePlayerOff st uuid = (st, .notActiveWarning uuid)) ∧
    (∀ v, st.webNoteAudioBuffers uuid = some v →
      (webNotePlayerOff st uuid).2 =
        .stopped 0 0 t GAIN_TIME_CONSTANT (t + EXTRA_NOTE_DURATION) ∧
      ((webNotePlayerOff st uuid).1).webNoteAudioBuffers uuid = none ∧
      (∀ k, k ≠ uuid → ((webNotePlayerOff st uuid).1).webNoteAudioBuffers k =
        st.webNoteAudioBuffers k) ∧
      (webNotePlayerOff (webNotePlayerOff st uuid).1 uuid).2 = .notActiveWarning uuid) := by
  constructor
  · intro h
    simp only [webNotePlayerOff, hctx, h]
  · intro v hv
    refine ⟨?_, ?_, ?_, ?_⟩
    · simp only [webNotePlayerOff, hctx, hv]
    · simp only [webNotePlayerOff, hctx, hv]
      simp
    · intro k hk
      simp only [webNotePlayerOff, hctx, hv]
      simp [hk]
    · simp only [webNotePlayerOff, hctx, hv]
      simp

/-- Example data: a state with one active voice registered under "a". -/
def voiceA : WebNoteVoice := { buffer := {}, gain := 6 / 10 }

def activeState : PlayerState :=
  { webNoteAudioContext := some 0
    audioSpriteInstrumentsData := some exCatalog
    webNoteAudioBuffers := fun k => if k = "a" then some voiceA else none }

theorem c7_note_off_lifecycle_witness :
    (webNotePlayerOff activeState "a").2 =
      .stopped 0 0 0 GAIN_TIME_CONSTANT (0 + EXTRA_NOTE_DURATION) ∧
    ((webNotePlayerOff activeState "a").1).webNoteAudioBuffers "a" = none ∧
    (webNotePlayerOff (webNotePlayerOff activeState "a").1 "a").2 =
      .notActiveWarning "a" ∧
    (webNotePlayerOff activeState "b").2 = .notActiveWarning "b" :=
  ⟨((c7_note_off_lifecycle activeState 0 "a" rfl).2 voiceA rfl).1,
   ((c7_note_off_lifecycle activeState 0 "a" rfl).2 voiceA rfl).2.1,
   ((c7_note_off_lifecycle activeState 0 "a" rfl).2 voiceA rfl).2.2.2,
   congrArg Prod.snd ((c7_note_off_lifecycle activeState 0 "b" rfl).1 rfl)⟩
